import Mathlib

/-!
Verification of the cecvol CEC bus protocol engine (`src/cec.rs`,
`src/cec/noop.rs`, `src/cec/vchi.rs`).

Shallow embedding conventions:
* `u8`/`u16`/`u32` values are `Nat`s; where the machine width matters the
  definitions apply the same masks / big-endian byte splits the Rust code
  applies (`% 256`, `/ 256`, `&&&`, `<<<`, `|||`).
* Rust enums with `TryFromPrimitive` are either Lean inductives with
  `toNat` / `try_from` functions (small enums) or subtypes of `Nat` over the
  list of valid discriminants (the large `Opcode` and `UserControl` enums).
* A Rust `String` is a list of bytes that satisfies UTF-8 validity
  (`RustString`); `str::from_utf8` succeeds exactly on valid byte lists and
  returns the same bytes.
* Fallible code returns `Except` / `Option`; a Rust panic possibility
  (unguarded slice index, `.unwrap()`) is modelled by the `panic`
  constructor of `PResult`, or by `Option.none` for callbacks.
-/

namespace Cecvol

/-- `enum LogicalAddress` from src/cec.rs: 4-bit role identifiers 0–15. -/
inductive LogicalAddress
  | TV
  | RecordingDevice1
  | RecordingDevice2
  | Tuner1
  | PlaybackDevice1
  | AudioSystem
  | Tuner2
  | Tuner3
  | PlaybackDevice2
  | RecordingDevice3
  | Tuner4
  | PlaybackDevice3
  | Reserved1
  | Reserved2
  | FreeUse
  | Broadcast
deriving DecidableEq

/-- The `repr(u8)` discriminant of a `LogicalAddress`. -/
def LogicalAddress.toNat : LogicalAddress → Nat
  | .TV => 0
  | .RecordingDevice1 => 1
  | .RecordingDevice2 => 2
  | .Tuner1 => 3
  | .PlaybackDevice1 => 4
  | .AudioSystem => 5
  | .Tuner2 => 6
  | .Tuner3 => 7
  | .PlaybackDevice2 => 8
  | .RecordingDevice3 => 9
  | .Tuner4 => 10
  | .PlaybackDevice3 => 11
  | .Reserved1 => 12
  | .Reserved2 => 13
  | .FreeUse => 14
  | .Broadcast => 15

/-- `LogicalAddress::try_from` (derived by `TryFromPrimitive`). -/
def LogicalAddress.try_from : Nat → Option LogicalAddress
  | 0 => some .TV
  | 1 => some .RecordingDevice1
  | 2 => some .RecordingDevice2
  | 3 => some .Tuner1
  | 4 => some .PlaybackDevice1
  | 5 => some .AudioSystem
  | 6 => some .Tuner2
  | 7 => some .Tuner3
  | 8 => some .PlaybackDevice2
  | 9 => some .RecordingDevice3
  | 10 => some .Tuner4
  | 11 => some .PlaybackDevice3
  | 12 => some .Reserved1
  | 13 => some .Reserved2
  | 14 => some .FreeUse
  | 15 => some .Broadcast
  | _ => none

/-- `enum DeviceType` from src/cec.rs. -/
inductive DeviceType
  | TV
  | RecordingDevice
  | Reserved
  | Tuner
  | PlaybackDevice
  | AudioSystem
  | Switch
  | VideoProcessor
deriving DecidableEq

/-- The `repr(u8)` discriminant of a `DeviceType`. -/
def DeviceType.toNat : DeviceType → Nat
  | .TV => 0
  | .RecordingDevice => 1
  | .Reserved => 2
  | .Tuner => 3
  | .PlaybackDevice => 4
  | .AudioSystem => 5
  | .Switch => 6
  | .VideoProcessor => 7

/-- `DeviceType::try_from` (derived by `TryFromPrimitive`). -/
def DeviceType.try_from : Nat → Option DeviceType
  | 0 => some .TV
  | 1 => some .RecordingDevice
  | 2 => some .Reserved
  | 3 => some .Tuner
  | 4 => some .PlaybackDevice
  | 5 => some .AudioSystem
  | 6 => some .Switch
  | 7 => some .VideoProcessor
  | _ => none

/-- `LogicalAddress::to_device_type` from src/cec.rs. -/
def LogicalAddress.to_device_type : LogicalAddress → DeviceType
  | .TV => .TV
  | .AudioSystem => .AudioSystem
  | .RecordingDevice1 | .RecordingDevice2 | .RecordingDevice3 => .RecordingDevice
  | .PlaybackDevice1 | .PlaybackDevice2 | .PlaybackDevice3 => .PlaybackDevice
  | .Tuner1 | .Tuner2 | .Tuner3 | .Tuner4 => .Tuner
  | .Reserved1 | .Reserved2 | .FreeUse | .Broadcast => .Reserved

/-- `enum PowerStatus` from src/cec.rs. -/
inductive PowerStatus
  | On
  | Standby
  | InTransitionStandbyToOn
  | InTransitionOnToStandby
  | Unknown
deriving DecidableEq

/-- The `repr(u8)` discriminant of a `PowerStatus`. -/
def PowerStatus.toNat : PowerStatus → Nat
  | .On => 0
  | .Standby => 1
  | .InTransitionStandbyToOn => 2
  | .InTransitionOnToStandby => 3
  | .Unknown => 153

/-- `PowerStatus::try_from` (derived by `TryFromPrimitive`). -/
def PowerStatus.try_from : Nat → Option PowerStatus
  | 0 => some .On
  | 1 => some .Standby
  | 2 => some .InTransitionStandbyToOn
  | 3 => some .InTransitionOnToStandby
  | 153 => some .Unknown
  | _ => none

/-- `enum AbortReason` from src/cec.rs. -/
inductive AbortReason
  | UnrecognisedOpcode
  | WrongMode
  | CannotProvideSource
  | InvalidOperand
  | Refused
  | Undetermined
deriving DecidableEq

/-- The `repr(u8)` discriminant of an `AbortReason`. -/
def AbortReason.toNat : AbortReason → Nat
  | .UnrecognisedOpcode => 0
  | .WrongMode => 1
  | .CannotProvideSource => 2
  | .InvalidOperand => 3
  | .Refused => 4
  | .Undetermined => 5

/-- `AbortReason::try_from` (derived by `TryFromPrimitive`). -/
def AbortReason.try_from : Nat → Option AbortReason
  | 0 => some .UnrecognisedOpcode
  | 1 => some .WrongMode
  | 2 => some .CannotProvideSource
  | 3 => some .InvalidOperand
  | 4 => some .Refused
  | 5 => some .Undetermined
  | _ => none

/-- `enum DeckStatus` from src/cec.rs. -/
inductive DeckStatus
  | On
  | Off
  | Once
deriving DecidableEq

/-- The `repr(u8)` discriminant of a `DeckStatus`. -/
def DeckStatus.toNat : DeckStatus → Nat
  | .On => 1
  | .Off => 2
  | .Once => 3

/-- `DeckStatus::try_from` (derived by `TryFromPrimitive`). -/
def DeckStatus.try_from : Nat → Option DeckStatus
  | 1 => some .On
  | 2 => some .Off
  | 3 => some .Once
  | _ => none

/-- The `repr(u8)` discriminants of `enum Opcode` from src/cec.rs, in source
order. -/
def opcodeValues : List Nat :=
  [0x00, 0x04, 0x05, 0x06, 0x07, 0x08, 0x09, 0x0A, 0x0B, 0x0D, 0x0F,
   0x1A, 0x1B, 0x32, 0x33, 0x34, 0x35, 0x36, 0x41, 0x42, 0x43, 0x44,
   0x45, 0x46, 0x47, 0x64, 0x67, 0x70, 0x71, 0x72, 0x7A, 0x7D, 0x7E,
   0x80, 0x81, 0x82, 0x83, 0x84, 0x85, 0x86, 0x87, 0x89, 0x8A, 0x8B,
   0x8C, 0x8D, 0x8E, 0x8F, 0x90, 0x91, 0x92, 0x93, 0x97, 0x99, 0x9A,
   0x9D, 0x9E, 0x9F, 0xA0, 0xA1, 0xA2, 0xA3, 0xA4, 0xC0, 0xC1, 0xC2,
   0xC3, 0xC4, 0xC5, 0xF8, 0xFF]

/-- `enum Opcode` from src/cec.rs: a valid 1-byte operation code.  A
`TryFromPrimitive` `repr(u8)` enum is represented by the subtype of its
valid discriminants. -/
def Opcode : Type := {n : Nat // n ∈ opcodeValues}

instance : DecidableEq Opcode := Subtype.instDecidableEq

/-- `Opcode::try_from` (derived by `TryFromPrimitive`). -/
def Opcode.try_from (n : Nat) : Option Opcode :=
  if h : n ∈ opcodeValues then some ⟨n, h⟩ else none

def Opcode.FeatureAbort : Opcode := ⟨0x00, by decide⟩
def Opcode.ImageViewOn : Opcode := ⟨0x04, by decide⟩
def Opcode.GiveDeckStatus : Opcode := ⟨0x1A, by decide⟩
def Opcode.Standby : Opcode := ⟨0x36, by decide⟩
def Opcode.UserControlPressed : Opcode := ⟨0x44, by decide⟩
def Opcode.UserControlReleased : Opcode := ⟨0x45, by decide⟩
def Opcode.GiveOSDName : Opcode := ⟨0x46, by decide⟩
def Opcode.SetOSDName : Opcode := ⟨0x47, by decide⟩
def Opcode.GiveAudioStatus : Opcode := ⟨0x71, by decide⟩
def Opcode.RoutingChange : Opcode := ⟨0x80, by decide⟩
def Opcode.ActiveSource : Opcode := ⟨0x82, by decide⟩
def Opcode.GivePhysicalAddress : Opcode := ⟨0x83, by decide⟩
def Opcode.ReportPhysicalAddress : Opcode := ⟨0x84, by decide⟩
def Opcode.RequestActiveSource : Opcode := ⟨0x85, by decide⟩
def Opcode.SetStreamPath : Opcode := ⟨0x86, by decide⟩
def Opcode.DeviceVendorID : Opcode := ⟨0x87, by decide⟩
def Opcode.VendorCommand : Opcode := ⟨0x89, by decide⟩
def Opcode.GiveDeviceVendorID : Opcode := ⟨0x8C, by decide⟩
def Opcode.GiveDevicePowerStatus : Opcode := ⟨0x8F, by decide⟩
def Opcode.ReportPowerStatus : Opcode := ⟨0x90, by decide⟩

/-- The `repr(u8)` discriminants of `enum UserControl` from src/cec.rs, in
source order. -/
def userControlValues : List Nat :=
  [0x00, 0x01, 0x02, 0x03, 0x04, 0x05, 0x06, 0x07, 0x08, 0x09, 0x0A,
   0x0B, 0x0C, 0x0D, 0x20, 0x21, 0x22, 0x23, 0x24, 0x25, 0x26, 0x27,
   0x28, 0x29, 0x2A, 0x2B, 0x2C, 0x30, 0x31, 0x32, 0x33, 0x34, 0x35,
   0x36, 0x37, 0x38, 0x40, 0x41, 0x42, 0x43, 0x44, 0x45, 0x46, 0x47,
   0x48, 0x49, 0x4A, 0x4B, 0x4C, 0x50, 0x51, 0x52, 0x53, 0x54, 0x55,
   0x60, 0x61, 0x62, 0x63, 0x64, 0x65, 0x66, 0x67, 0x68, 0x69, 0x6A,
   0x71, 0x72, 0x73, 0x74, 0x75]

/-- `enum UserControl` from src/cec.rs, as the subtype of its valid
`repr(u8)` discriminants. -/
def UserControl : Type := {n : Nat // n ∈ userControlValues}

instance : DecidableEq UserControl := Subtype.instDecidableEq

/-- `UserControl::try_from` (derived by `TryFromPrimitive`). -/
def UserControl.try_from (n : Nat) : Option UserControl :=
  if h : n ∈ userControlValues then some ⟨n, h⟩ else none

def UserControl.Enter : UserControl := ⟨0x2B, by decide⟩
def UserControl.VolumeUp : UserControl := ⟨0x41, by decide⟩
def UserControl.VolumeDown : UserControl := ⟨0x42, by decide⟩
def UserControl.Mute : UserControl := ⟨0x43, by decide⟩

/-- Whether a byte is a UTF-8 continuation byte (`10xxxxxx`). -/
def isCont (b : Nat) : Bool := 0x80 ≤ b && b ≤ 0xBF

/-- Valid ranges of the second byte of a 3-byte UTF-8 sequence (excluding
surrogates and overlong forms, as Rust's `str::from_utf8` does). -/
def utf8Second3 (b c1 : Nat) : Bool :=
  if b = 0xE0 then 0xA0 ≤ c1 && c1 ≤ 0xBF
  else if b = 0xED then 0x80 ≤ c1 && c1 ≤ 0x9F
  else isCont c1

/-- Valid ranges of the second byte of a 4-byte UTF-8 sequence. -/
def utf8Second4 (b c1 : Nat) : Bool :=
  if b = 0xF0 then 0x90 ≤ c1 && c1 ≤ 0xBF
  else if b = 0xF4 then 0x80 ≤ c1 && c1 ≤ 0x8F
  else isCont c1

/-- UTF-8 validity of a byte sequence: the success condition of Rust's
`str::from_utf8`. -/
def validUtf8 : List Nat → Bool
  | [] => true
  | b :: rest =>
    if b ≤ 0x7F then validUtf8 rest
    else if 0xC2 ≤ b && b ≤ 0xDF then
      match rest with
      | c1 :: rest2 => isCont c1 && validUtf8 rest2
      | [] => false
    else if 0xE0 ≤ b && b ≤ 0xEF then
      match rest with
      | c1 :: c2 :: rest2 => utf8Second3 b c1 && isCont c2 && validUtf8 rest2
      | _ => false
    else if 0xF0 ≤ b && b ≤ 0xF4 then
      match rest with
      | c1 :: c2 :: c3 :: rest2 =>
        utf8Second4 b c1 && isCont c2 && isCont c3 && validUtf8 rest2
      | _ => false
    else false

/-- A Rust `String`: a byte sequence carrying the UTF-8 validity
invariant that Rust's `String` type guarantees
(`name.as_bytes()` is these bytes). -/
def RustString : Type := {bytes : List Nat // validUtf8 bytes = true}

instance : DecidableEq RustString := Subtype.instDecidableEq

/-- `str::from_utf8(b)?.to_string()`: succeeds exactly on valid UTF-8 and
views the same bytes. -/
def from_utf8 (b : List Nat) : Option RustString :=
  if h : validUtf8 b = true then some ⟨b, h⟩ else none

/-- `type PhysicalAddress = u16` (values < 65536 when well-formed). -/
def PhysicalAddress : Type := Nat

/-- `enum CECMessage` from src/cec.rs. -/
inductive CECMessage
  | FeatureAbort (feature_opcode : Opcode) (abort_reason : AbortReason)
  | ImageViewOn
  | Standby
  | RequestActiveSource
  | ActiveSource (physical_address : Nat)
  | GivePhysicalAddress
  | ReportPhysicalAddress (physical_address : Nat) (device_type : DeviceType)
  | SetStreamPath (physical_address : Nat)
  | GiveOSDName
  | SetOSDName (name : RustString)
  | GiveDevicePowerStatus
  | ReportPowerStatus (power_status : PowerStatus)
  | GiveDeviceVendorID
  | DeviceVendorID (vendor_id : Nat)
  | GiveDeckStatus (status_request : DeckStatus)
  | GiveAudioStatus
  | RoutingChange (original_address : Nat) (new_address : Nat)
  | UserControlPressed (user_control_code : UserControl)
  | UserControlReleased
  | VendorCommand (vendor_data : List Nat)
deriving DecidableEq

/-- `u16::to_be_bytes` of a physical address (the `% 256` makes the u16
truncation explicit; it is the identity on well-formed values). -/
def u16_to_be_bytes (n : Nat) : List Nat := [(n / 256) % 256, n % 256]

/-- `u32::to_be_bytes`. -/
def u32_to_be_bytes (n : Nat) : List Nat :=
  [(n / 16777216) % 256, (n / 65536) % 256, (n / 256) % 256, n % 256]

/-- `CECMessage::get_opcode` from src/cec.rs. -/
def CECMessage.get_opcode : CECMessage → Opcode
  | .FeatureAbort .. => .FeatureAbort
  | .ImageViewOn => .ImageViewOn
  | .Standby => .Standby
  | .ActiveSource .. => .ActiveSource
  | .RequestActiveSource => .RequestActiveSource
  | .GivePhysicalAddress => .GivePhysicalAddress
  | .ReportPhysicalAddress .. => .ReportPhysicalAddress
  | .SetStreamPath .. => .SetStreamPath
  | .GiveOSDName => .GiveOSDName
  | .SetOSDName .. => .SetOSDName
  | .GiveDevicePowerStatus => .GiveDevicePowerStatus
  | .ReportPowerStatus .. => .ReportPowerStatus
  | .GiveDeviceVendorID => .GiveDeviceVendorID
  | .DeviceVendorID .. => .DeviceVendorID
  | .GiveAudioStatus => .GiveAudioStatus
  | .RoutingChange .. => .RoutingChange
  | .UserControlPressed .. => .UserControlPressed
  | .UserControlReleased => .UserControlReleased
  | .VendorCommand .. => .VendorCommand
  | .GiveDeckStatus .. => .GiveDeckStatus

/-- `CECMessage::get_parameters` from src/cec.rs. -/
def CECMessage.get_parameters : CECMessage → List Nat
  | .FeatureAbort fop ar => [fop.val, ar.toNat]
  | .ActiveSource pa | .SetStreamPath pa => u16_to_be_bytes pa
  | .ReportPhysicalAddress pa dt => u16_to_be_bytes pa ++ [dt.toNat]
  | .SetOSDName name => name.val
  | .ReportPowerStatus ps => [ps.toNat]
  | .DeviceVendorID v => (u32_to_be_bytes v).drop 1
  | .RoutingChange oa na => u16_to_be_bytes oa ++ u16_to_be_bytes na
  | .UserControlPressed uc => [uc.val]
  | .VendorCommand d => d
  | .GiveDeckStatus ds => [ds.toNat]
  | .ImageViewOn | .Standby | .RequestActiveSource | .GivePhysicalAddress
  | .GiveOSDName | .UserControlReleased | .GiveDevicePowerStatus
  | .GiveDeviceVendorID | .GiveAudioStatus => []

/-- `CECMessage::payload` from src/cec.rs: opcode byte then parameters. -/
def CECMessage.payload (m : CECMessage) : List Nat :=
  m.get_opcode.val :: m.get_parameters

/-- `enum Error` from src/cec.rs (the parse-error taxonomy; the Rust
payloads carry only the offending primitive value and are omitted). -/
inductive Error
  | InputTooShort
  | OpcodeNotImplemented
  | BadLogicalAddr
  | BadOpcode
  | BadAbortReason
  | BadPowerStatus
  | BadUserControlCode
  | BadDeviceType
  | BadDeckStatus
  | BadInternalSlicing
  | BadString
deriving DecidableEq

/-- `struct CECCommand` from src/cec.rs. -/
structure CECCommand where
  initiator : Option LogicalAddress
  destination : LogicalAddress
  message : CECMessage
deriving DecidableEq

/-- Result of running fallible Rust code that can also panic: `panic`
models an unguarded slice index / array access. -/
inductive PResult (α : Type)
  | panic
  | error (e : Error)
  | ok (a : α)
deriving DecidableEq

/-- Rust slice indexing `l[i]`: `none` is a panic. -/
def idx? (l : List Nat) (i : Nat) : Option Nat := l.get? i

/-- Rust slicing `l[a..b]`: panics unless `a ≤ b ≤ l.len()`. -/
def slice? (l : List Nat) (a b : Nat) : Option (List Nat) :=
  if a ≤ b ∧ b ≤ l.length then some ((l.drop a).take (b - a)) else none

/-- Rust suffix slicing `l[a..]`: panics unless `a ≤ l.len()`. -/
def sliceFrom? (l : List Nat) (a : Nat) : Option (List Nat) :=
  if a ≤ l.length then some (l.drop a) else none

/-- `physical_address_from_bytes` from src/cec.rs:
`u16::from_be_bytes(b.try_into()?)`; the `try_into` fails (as an error, not
a panic) unless the slice has exactly 2 bytes. -/
def physical_address_from_bytes (b : List Nat) : Except Error Nat :=
  match b with
  | [hi, lo] => .ok (hi * 256 + lo)
  | _ => .error .BadInternalSlicing

/-- The opcode-specific minimum total length table inside
`CECCommand::from_raw` (keyed by the opcode byte). -/
def min_len (op : Nat) : Nat :=
  match op with
  | 0x04 | 0x36 | 0x83 | 0x85 | 0x46 | 0x8C | 0x71 | 0x45 => 2
  | 0x47 | 0x1A | 0x90 | 0x44 | 0x89 => 3
  | 0x82 | 0x86 | 0x00 => 4
  | 0x84 | 0x87 => 5
  | 0x80 => 6
  | _ => 0

/-- The per-opcode parameter parsing (`let message = match opcode ...`)
inside `CECCommand::from_raw`, keyed by the opcode's discriminant byte. -/
def parse_message (op : Nat) (input : List Nat) : PResult CECMessage :=
  match op with
  | 0x00 =>
    match idx? input 2 with
    | none => .panic
    | some b2 =>
      match Opcode.try_from b2 with
      | none => .error .BadOpcode
      | some fop =>
        match idx? input 3 with
        | none => .panic
        | some b3 =>
          match AbortReason.try_from b3 with
          | none => .error .BadAbortReason
          | some ar => .ok (.FeatureAbort fop ar)
  | 0x04 => .ok .ImageViewOn
  | 0x36 => .ok .Standby
  | 0x83 => .ok .GivePhysicalAddress
  | 0x85 => .ok .RequestActiveSource
  | 0x46 => .ok .GiveOSDName
  | 0x8F => .ok .GiveDevicePowerStatus
  | 0x1A =>
    match idx? input 2 with
    | none => .panic
    | some b2 =>
      match DeckStatus.try_from b2 with
      | none => .error .BadDeckStatus
      | some ds => .ok (.GiveDeckStatus ds)
  | 0x82 =>
    match slice? input 2 4 with
    | none => .panic
    | some s =>
      match physical_address_from_bytes s with
      | .error e => .error e
      | .ok pa => .ok (.ActiveSource pa)
  | 0x84 =>
    match slice? input 2 4 with
    | none => .panic
    | some s =>
      match physical_address_from_bytes s with
      | .error e => .error e
      | .ok pa =>
        match idx? input 4 with
        | none => .panic
        | some b4 =>
          match DeviceType.try_from b4 with
          | none => .error .BadDeviceType
          | some dt => .ok (.ReportPhysicalAddress pa dt)
  | 0x47 =>
    match sliceFrom? input 2 with
    | none => .panic
    | some s =>
      match from_utf8 s with
      | none => .error .BadString
      | some name => .ok (.SetOSDName name)
  | 0x90 =>
    match idx? input 2 with
    | none => .panic
    | some b2 =>
      match PowerStatus.try_from b2 with
      | none => .error .BadPowerStatus
      | some ps => .ok (.ReportPowerStatus ps)
  | 0x86 =>
    match slice? input 2 4 with
    | none => .panic
    | some s =>
      match physical_address_from_bytes s with
      | .error e => .error e
      | .ok pa => .ok (.SetStreamPath pa)
  | 0x8C => .ok .GiveDeviceVendorID
  | 0x87 =>
    match idx? input 2, idx? input 3, idx? input 4 with
    | some b2, some b3, some b4 =>
      .ok (.DeviceVendorID (((b2 <<< 16) ||| (b3 <<< 8)) ||| b4))
    | _, _, _ => .panic
  | 0x71 => .ok .GiveAudioStatus
  | 0x80 =>
    match slice? input 2 4 with
    | none => .panic
    | some s1 =>
      match physical_address_from_bytes s1 with
      | .error e => .error e
      | .ok oa =>
        match slice? input 4 6 with
        | none => .panic
        | some s2 =>
          match physical_address_from_bytes s2 with
          | .error e => .error e
          | .ok na => .ok (.RoutingChange oa na)
  | 0x44 =>
    match idx? input 2 with
    | none => .panic
    | some b2 =>
      match UserControl.try_from b2 with
      | none => .error .BadUserControlCode
      | some uc => .ok (.UserControlPressed uc)
  | 0x45 => .ok .UserControlReleased
  | 0x89 =>
    match sliceFrom? input 2 with
    | none => .panic
    | some d => .ok (.VendorCommand d)
  | _ => .error .OpcodeNotImplemented

/-- `CECCommand::from_raw` from src/cec.rs. -/
def CECCommand.from_raw (input : List Nat) : PResult CECCommand :=
  if input.length = 0 then .error .InputTooShort else
  match idx? input 0 with
  | none => .panic
  | some b0 =>
    match LogicalAddress.try_from ((b0 &&& 0xf0) >>> 4) with
    | none => .error .BadLogicalAddr
    | some ini =>
      match LogicalAddress.try_from (b0 &&& 0x0f) with
      | none => .error .BadLogicalAddr
      | some dst =>
        if input.length < 2 then .error .InputTooShort else
        match idx? input 1 with
        | none => .panic
        | some b1 =>
          match Opcode.try_from b1 with
          | none => .error .BadOpcode
          | some opcode =>
            if input.length < min_len opcode.val then .error .InputTooShort else
            match parse_message opcode.val input with
            | .panic => .panic
            | .error e => .error e
            | .ok message => .ok ⟨some ini, dst, message⟩

/-- `enum CECError` from src/cec.rs (payloads other than the parse error
are opaque boxed errors and carry no information the claims need). -/
inductive CECError
  | UnknownInputDevice
  | ParsingError (e : Error)
  | Other
deriving DecidableEq

/-- `enum Input` from src/tv.rs. -/
inductive Input
  | HDMI1
  | HDMI2
  | HDMI3
  | HDMI4
deriving DecidableEq

/-- The mutable state of `struct CEC` from src/cec.rs relevant to its
public operations, plus the trace of frames handed to
`conn.transmit` (oldest first).  The transport connection itself is
modelled as a function below. -/
structure CECState where
  power_state : Bool
  input_state : Nat
  sent : List CECCommand
deriving DecidableEq

/-- A transport's `transmit`, abstracted: what `CECConnection::transmit`
returns for each frame.  `LogOnlyConn.transmit` (src/cec/noop.rs) always
returns `Ok`. -/
def ConnTransmit : Type := CECCommand → Except CECError Unit

/-- Sequencing with the `?` operator: on error the state so far is kept
(the Rust `self` persists) and the error propagates. -/
def seqOp (r : CECState × Except CECError Unit)
    (k : CECState → CECState × Except CECError Unit) :
    CECState × Except CECError Unit :=
  match r with
  | (s, .ok _) => k s
  | (s, .error e) => (s, .error e)

/-- `CEC::transmit` from src/cec.rs: hand the frame (initiator `None`) to
the connection, then wait (bounded, soft timeout) on the tx-echo signal;
the wait always ends in `Ok(())`, so the overall result is the
connection's. -/
def CEC.transmit (conn : ConnTransmit) (s : CECState)
    (destination : LogicalAddress) (message : CECMessage) :
    CECState × Except CECError Unit :=
  let cmd : CECCommand := ⟨none, destination, message⟩
  let s' := { s with sent := s.sent ++ [cmd] }
  match conn cmd with
  | .ok _ => (s', .ok ())
  | .error e => (s', .error e)

/-- `CEC::broadcast` from src/cec.rs. -/
def CEC.broadcast (conn : ConnTransmit) (s : CECState) (code : CECMessage) :
    CECState × Except CECError Unit :=
  CEC.transmit conn s .Broadcast code

/-- `CEC::press_key` from src/cec.rs: a press frame then a release frame,
both to the TV. -/
def CEC.press_key (conn : ConnTransmit) (s : CECState) (code : UserControl) :
    CECState × Except CECError Unit :=
  seqOp (CEC.transmit conn s .TV (.UserControlPressed code)) fun s1 =>
    CEC.transmit conn s1 .TV .UserControlReleased

/-- The `for` loops of `CEC::volume_change`: press a key `n` times. -/
def CEC.press_key_times (conn : ConnTransmit) (s : CECState)
    (code : UserControl) : Nat → CECState × Except CECError Unit
  | 0 => (s, .ok ())
  | n + 1 => seqOp (CEC.press_key conn s code) fun s1 =>
      CEC.press_key_times conn s1 code n

/-- `CEC::volume_change` from src/cec.rs. -/
def CEC.volume_change (conn : ConnTransmit) (s : CECState)
    (relative_steps : Int) : CECState × Except CECError Unit :=
  if relative_steps > 0 then
    CEC.press_key_times conn s .VolumeUp relative_steps.toNat
  else if relative_steps < 0 then
    CEC.press_key_times conn s .VolumeDown (-relative_steps).toNat
  else (s, .ok ())

/-- `CEC::mute` from src/cec.rs. -/
def CEC.mute (conn : ConnTransmit) (s : CECState) (mute : Bool) :
    CECState × Except CECError Unit :=
  if mute then
    seqOp (CEC.volume_change conn s (-1)) fun s1 =>
      seqOp (CEC.volume_change conn s1 1) fun s2 =>
        CEC.press_key conn s2 .Mute
  else
    seqOp (CEC.press_key conn s .Mute) fun s1 =>
      seqOp (CEC.volume_change conn s1 (-1)) fun s2 =>
        CEC.volume_change conn s2 1

/-- `CEC::on_off` from src/cec.rs: the requested state is recorded first,
then the frame is transmitted. -/
def CEC.on_off (conn : ConnTransmit) (s : CECState) (on' : Bool) :
    CECState × Except CECError Unit :=
  let s' := { s with power_state := on' }
  if on' then CEC.transmit conn s' .TV .ImageViewOn
  else CEC.transmit conn s' .TV .Standby

/-- `CEC::set_input` from src/cec.rs. -/
def CEC.set_input (conn : ConnTransmit) (s : CECState) (new_input : Input) :
    CECState × Except CECError Unit :=
  let new_addr : Nat :=
    match new_input with
    | .HDMI1 => 0x1000
    | .HDMI2 => 0x2000
    | .HDMI3 => 0x3000
    | .HDMI4 => 0x4000
  seqOp (CEC.broadcast conn s
      (.ReportPhysicalAddress new_addr .RecordingDevice)) fun s1 =>
    seqOp (CEC.broadcast conn s1 (.ActiveSource new_addr)) fun s2 =>
      ({ s2 with input_state := new_addr }, .ok ())

/-- The fixed peer list inside `CEC::poll_all` from src/cec.rs. -/
def pollAddresses : List LogicalAddress :=
  [.TV, .AudioSystem, .PlaybackDevice1, .PlaybackDevice2, .PlaybackDevice3,
   .RecordingDevice1, .RecordingDevice2, .RecordingDevice3,
   .Tuner1, .Tuner2, .Tuner3, .Tuner4]

/-- The loop body of `CEC::poll_all`. -/
def CEC.poll_all_go (conn : ConnTransmit) :
    List LogicalAddress → CECState → CECState × Except CECError Unit
  | [], s => (s, .ok ())
  | addr :: rest, s =>
    seqOp (CEC.transmit conn s addr .GiveOSDName) fun s1 =>
      seqOp (CEC.transmit conn s1 addr .GivePhysicalAddress) fun s2 =>
        CEC.poll_all_go conn rest s2

/-- `CEC::poll_all` from src/cec.rs. -/
def CEC.poll_all (conn : ConnTransmit) (s : CECState) :
    CECState × Except CECError Unit :=
  CEC.poll_all_go conn pollAddresses s

/-- `CEC::is_on` from src/cec.rs. -/
def CEC.is_on (s : CECState) : Bool := s.power_state

/-- `CEC::current_input` from src/cec.rs. -/
def CEC.current_input (s : CECState) : Nat := s.input_state

/-- The full `CECConnection` interface a callback needs, abstracted:
results of `transmit`, `get_logical_address`, `get_physical_address`. -/
structure ConnModel where
  transmit : CECCommand → Except CECError Unit
  get_logical_address : Except CECError LogicalAddress
  get_physical_address : Except CECError Nat

/-- `LogOnlyConn` from src/cec/noop.rs: every call succeeds, address
queries return the fixed placeholders `Broadcast` and `0`. -/
def LogOnlyConn : ConnModel where
  transmit := fun _ => .ok ()
  get_logical_address := .ok .Broadcast
  get_physical_address := .ok 0

/-- The state owned by the rx closure registered in `CEC::new`:
the shared power/input cells plus the closure-local
`logical_to_physical` array (`[0; 0xf]`, 15 entries). -/
structure RxState where
  power_state : Bool
  input_state : Nat
  logical_to_physical : List Nat
deriving DecidableEq

/-- The receive callback registered in `CEC::new` (src/cec.rs).  Returns
the updated state and the reply frames handed to `conn.transmit`, or
`none` when the Rust closure would panic (an `unwrap()` on a missing
initiator or failed transmit, `vendor_data[0]` on an empty vector, or an
out-of-range `logical_to_physical` index). -/
def CEC.rx_callback (osd_name : RustString) (vendor_id : Nat)
    (conn : ConnModel) (st : RxState) (msg : CECCommand) :
    Option (RxState × List CECCommand) :=
  match msg.message with
  | .GiveOSDName =>
    match msg.initiator with
    | none => none
    | some dest =>
      let out : CECCommand := ⟨none, dest, .SetOSDName osd_name⟩
      match conn.transmit out with
      | .ok _ => some (st, [out])
      | .error _ => none
  | .GiveDeviceVendorID =>
    match msg.initiator with
    | none => none
    | some dest =>
      let out : CECCommand := ⟨none, dest, .DeviceVendorID vendor_id⟩
      match conn.transmit out with
      | .ok _ => some (st, [out])
      | .error _ => none
  | .GiveDevicePowerStatus =>
    match msg.initiator with
    | none => none
    | some dest =>
      let out : CECCommand := ⟨none, dest, .ReportPowerStatus .On⟩
      match conn.transmit out with
      | .ok _ => some (st, [out])
      | .error _ => none
  | .GivePhysicalAddress =>
    match msg.initiator with
    | none => none
    | some dest =>
      match conn.get_physical_address with
      | .error _ => none
      | .ok pa =>
        match conn.get_logical_address with
        | .error _ => none
        | .ok la =>
          let out : CECCommand :=
            ⟨none, dest, .ReportPhysicalAddress pa la.to_device_type⟩
          match conn.transmit out with
          | .ok _ => some (st, [out])
          | .error _ => none
  | .ReportPhysicalAddress pa _ =>
    match msg.initiator with
    | none => none
    | some ini =>
      if ini.toNat < 15 then
        some ({ st with
          logical_to_physical := st.logical_to_physical.set ini.toNat pa }, [])
      else none
  | .RoutingChange _ na =>
    some ({ st with input_state := na, power_state := true }, [])
  | .SetStreamPath pa =>
    some ({ st with input_state := pa, power_state := true }, [])
  | .ActiveSource pa =>
    some ({ st with input_state := pa, power_state := true }, [])
  | .Standby => some ({ st with power_state := false }, [])
  | .ImageViewOn => some ({ st with power_state := true }, [])
  | .VendorCommand vendor_data =>
    match vendor_data.get? 0 with
    | none => none
    | some b0 =>
      if b0 = 0x01 then
        match msg.initiator with
        | none => none
        | some dest =>
          let out : CECCommand := ⟨none, dest, .VendorCommand [0x02, 0x05]⟩
          match conn.transmit out with
          | .ok _ => some (st, [out])
          | .error _ => none
      else if b0 = 0x04 then
        match msg.initiator with
        | none => none
        | some dest =>
          let out1 : CECCommand :=
            ⟨none, dest, .VendorCommand [0x05, DeviceType.RecordingDevice.toNat]⟩
          match conn.transmit out1 with
          | .error _ => none
          | .ok _ =>
            let out2 : CECCommand := ⟨none, dest, .ReportPowerStatus .On⟩
            match conn.transmit out2 with
            | .error _ => none
            | .ok _ => some (st, [out1, out2])
      else if b0 = 0x03 ∨ b0 = 0x0b ∨ b0 = 0xa0 then
        match msg.initiator with
        | none => none
        | some dest =>
          let out1 : CECCommand :=
            ⟨none, dest, .ReportPowerStatus .InTransitionStandbyToOn⟩
          match conn.transmit out1 with
          | .error _ => none
          | .ok _ =>
            let out2 : CECCommand := ⟨none, dest, .ReportPowerStatus .On⟩
            match conn.transmit out2 with
            | .error _ => none
            | .ok _ => some (st, [out1, out2])
      else some (st, [])
  | _ => some (st, [])

/-- `nix::Error` as matched by `retry` in src/cec/vchi.rs: the `Sys`
variant carries an errno. -/
inductive NixError
  | Sys (errno : Nat)
  | InvalidPath
  | InvalidUtf8
  | UnsupportedOperation
deriving DecidableEq

/-- `Errno::EINTR` (Linux errno 4). -/
def EINTR : Nat := 4

/-- A `nix::Result<c_int>`. -/
abbrev NixResult : Type := Except NixError Int

instance : DecidableEq NixResult := fun a b =>
  match a, b with
  | .ok x, .ok y =>
    if h : x = y then .isTrue (by rw [h])
    else .isFalse (by intro hc; injection hc; contradiction)
  | .error x, .error y =>
    if h : x = y then .isTrue (by rw [h])
    else .isFalse (by intro hc; injection hc; contradiction)
  | .ok _, .error _ => .isFalse (by intro hc; injection hc)
  | .error _, .ok _ => .isFalse (by intro hc; injection hc)

/-- `retry` from src/cec/vchi.rs.  The `FnMut` closure is embedded as the
list of results its successive invocations produce; `retry` calls it once
and recurses while the result is `Err(nix::Error::Sys(Errno::EINTR))`.
`none` corresponds to the modelled call sequence being exhausted (the Rust
loop would still be retrying). -/
def retry : List NixResult → Option NixResult
  | [] => none
  | r :: rest =>
    match r with
    | .error (.Sys e) => if e = EINTR then retry rest else some r
    | _ => some r

/-- Whether a `PResult` is the panic outcome. -/
def PResult.isPanic {α : Type} : PResult α → Bool
  | .panic => true
  | _ => false

/-- Well-formedness of a `CECMessage`: the machine-width bounds that the
Rust field types (`u16`, `u32`, `Vec<u8>`) enforce by construction. -/
def CECMessage.wf : CECMessage → Prop
  | .ActiveSource pa => pa < 65536
  | .SetStreamPath pa => pa < 65536
  | .ReportPhysicalAddress pa _ => pa < 65536
  | .DeviceVendorID v => v < 4294967296
  | .RoutingChange oa na => oa < 65536 ∧ na < 65536
  | .VendorCommand d => ∀ b ∈ d, b < 256
  | _ => True

/-- The messages whose encoding decodes back to themselves: all except
an empty OSD name, empty vendor data (their 2-byte encodings fall below
the opcode's 3-byte minimum length) and a vendor id with a nonzero top
byte (the encoder drops it). -/
def CECMessage.roundTrippable : CECMessage → Prop
  | .SetOSDName s => s.val ≠ []
  | .VendorCommand d => d ≠ []
  | .DeviceVendorID v => v < 16777216
  | _ => True

/-- Spec wording of claim C6: the power state after the receive callback
handles a message. -/
def rx_power_spec (old : Bool) : CECMessage → Bool
  | .ActiveSource _ => true
  | .RoutingChange _ _ => true
  | .SetStreamPath _ => true
  | .ImageViewOn => true
  | .Standby => false
  | _ => old

/-- Spec wording of claim C6: the input state after the receive callback
handles a message. -/
def rx_input_spec (old : Nat) : CECMessage → Nat
  | .ActiveSource pa => pa
  | .RoutingChange _ na => na
  | .SetStreamPath pa => pa
  | _ => old

/-- A key-press frame to the display address. -/
def press_cmd (k : UserControl) : CECCommand :=
  ⟨none, .TV, .UserControlPressed k⟩

/-- The key-release frame to the display address. -/
def release_cmd : CECCommand := ⟨none, .TV, .UserControlReleased⟩

/-- One press+release pair to the display address. -/
def press_pair (k : UserControl) : List CECCommand :=
  [press_cmd k, release_cmd]

/-- Whether a frame is a key press. -/
def is_press (c : CECCommand) : Bool :=
  match c.message with
  | .UserControlPressed _ => true
  | _ => false

/-- The six frames `CEC::mute` emits, in order, for each direction. -/
def mute_frames (b : Bool) : List CECCommand :=
  if b then
    press_pair .VolumeDown ++ press_pair .VolumeUp ++ press_pair .Mute
  else
    press_pair .Mute ++ press_pair .VolumeDown ++ press_pair .VolumeUp

/-- The 24 frames `CEC::poll_all` emits: per peer address, "give OSD
name" then "give physical address". -/
def poll_frames : List CECCommand :=
  pollAddresses.flatMap fun addr =>
    [⟨none, addr, .GiveOSDName⟩, ⟨none, addr, .GivePhysicalAddress⟩]

/-- Spec wording of claim C10: the input-to-physical-address map. -/
def input_addr : Input → Nat
  | .HDMI1 => 0x1000
  | .HDMI2 => 0x2000
  | .HDMI3 => 0x3000
  | .HDMI4 => 0x4000

/-- A connection whose `transmit` always fails (used to observe ordering
of state recording versus transmission). -/
def failConn : ConnTransmit := fun _ => .error .Other

/-! ### Helper lemmas -/

lemma and_f0_shr_lt (n : Nat) : (n &&& 0xf0) >>> 4 < 16 := by
  have h1 : n &&& 0xf0 ≤ 0xf0 := Nat.and_le_right
  have h2 : (n &&& 0xf0) >>> 4 = (n &&& 0xf0) / 16 :=
    Nat.shiftRight_eq_div_pow _ _
  omega

lemma and_0f_lt (n : Nat) : n &&& 0x0f < 16 :=
  lt_of_le_of_lt Nat.and_le_right (by norm_num)

lemma LogicalAddress.try_from_isSome (n : Nat) (h : n < 16) :
    ∃ la, LogicalAddress.try_from n = some la := by
  interval_cases n <;> exact ⟨_, rfl⟩

lemma opcode_try_from_val (op : Opcode) :
    Opcode.try_from op.val = some op := by
  obtain ⟨v, hv⟩ := op
  simp [Opcode.try_from, hv]

lemma user_control_try_from_val (uc : UserControl) :
    UserControl.try_from uc.val = some uc := by
  obtain ⟨v, hv⟩ := uc
  simp [UserControl.try_from, hv]

lemma abort_reason_try_from_toNat (r : AbortReason) :
    AbortReason.try_from r.toNat = some r := by cases r <;> rfl

lemma power_status_try_from_toNat (p : PowerStatus) :
    PowerStatus.try_from p.toNat = some p := by cases p <;> rfl

lemma deck_status_try_from_toNat (d : DeckStatus) :
    DeckStatus.try_from d.toNat = some d := by cases d <;> rfl

lemma device_type_try_from_toNat (d : DeviceType) :
    DeviceType.try_from d.toNat = some d := by cases d <;> rfl

/-- No `parse_message` branch can panic once the `min_len` check has
passed (every slice index it performs is below the opcode's minimum
length). -/
lemma parse_message_no_panic (v : Nat)
    (input : List Nat) (h2 : 2 ≤ input.length)
    (hlen : min_len v ≤ input.length) :
    parse_message v input ≠ .panic := by
  intro h
  rcases input with _ | ⟨a, _ | ⟨b, rest⟩⟩
  · simp at h2
  · simp at h2
  rcases rest with _ | ⟨c, _ | ⟨d, _ | ⟨e, _ | ⟨f, t⟩⟩⟩⟩ <;>
    · unfold parse_message at h
      repeat' split at h
      all_goals (try exact PResult.noConfusion h)
      all_goals
        (simp_all [idx?, slice?, sliceFrom?, List.get?_eq_none, min_len];
         try omega)

/-- `CECCommand::from_raw` never panics: it is total on arbitrary byte
sequences, every index being guarded by a preceding length check. -/
lemma from_raw_no_panic (input : List Nat) :
    CECCommand.from_raw input ≠ .panic := by
  intro h
  unfold CECCommand.from_raw at h
  by_cases h0 : input.length = 0
  · simp only [if_pos h0] at h; exact PResult.noConfusion h
  simp only [if_neg h0] at h
  have hlen0 : 0 < input.length := Nat.pos_of_ne_zero h0
  obtain ⟨b0, hb0⟩ : ∃ b, idx? input 0 = some b := by
    rcases input with _ | ⟨x, t⟩
    · simp at hlen0
    · exact ⟨x, rfl⟩
  simp only [hb0] at h
  obtain ⟨ini, hini⟩ := LogicalAddress.try_from_isSome _ (and_f0_shr_lt b0)
  obtain ⟨dst, hdst⟩ := LogicalAddress.try_from_isSome _ (and_0f_lt b0)
  simp only [hini, hdst] at h
  by_cases h2 : input.length < 2
  · simp only [if_pos h2] at h; exact PResult.noConfusion h
  simp only [if_neg h2] at h
  obtain ⟨b1, hb1⟩ : ∃ b, idx? input 1 = some b := by
    rcases input with _ | ⟨x, _ | ⟨y, t⟩⟩
    · simp at hlen0
    · simp at h2
    · exact ⟨y, rfl⟩
  simp only [hb1] at h
  rcases hop : Opcode.try_from b1 with _ | op
  · simp only [hop] at h; exact PResult.noConfusion h
  simp only [hop] at h
  by_cases hmin : input.length < min_len op.val
  · simp only [if_pos hmin] at h; exact PResult.noConfusion h
  simp only [if_neg hmin] at h
  rcases hp : parse_message op.val input with _ | e | m
  · exact parse_message_no_panic op.val input (by omega) (by omega) hp
  · simp only [hp] at h; exact PResult.noConfusion h
  · simp only [hp] at h; exact PResult.noConfusion h

/-- Bitwise-or of a left-shifted value with a small value is addition
(the bit ranges are disjoint). -/
lemma shiftLeft_lor_eq_add :
    ∀ (k a b : Nat), b < 2 ^ k → (a <<< k) ||| b = a <<< k + b
  | 0, a, b, hb => by
    have hb0 : b = 0 := by omega
    subst hb0
    simp
  | k + 1, a, b, hb => by
    have hb2 : b / 2 < 2 ^ k := by
      have : 2 ^ (k + 1) = 2 ^ k * 2 := by ring
      omega
    have ih := shiftLeft_lor_eq_add k a (b / 2) hb2
    have h1 : a <<< (k + 1) = Nat.bit false (a <<< k) := by
      rw [Nat.shiftLeft_succ]
      simp [Nat.bit_val]
    have h2 : Nat.bit (decide (b % 2 = 1)) (b >>> 1) = b :=
      Nat.bit_decide_mod_two_eq_one_shiftRight_one b
    have h3 : b >>> 1 = b / 2 := Nat.shiftRight_one b
    calc (a <<< (k + 1)) ||| b
        = Nat.bit false (a <<< k) ||| Nat.bit (decide (b % 2 = 1)) (b >>> 1) := by
          rw [h1, h2]
      _ = Nat.bit (false || decide (b % 2 = 1)) ((a <<< k) ||| (b >>> 1)) := by
          rw [Nat.lor_bit]
      _ = Nat.bit (decide (b % 2 = 1)) ((a <<< k) + b / 2) := by
          rw [Bool.false_or, h3, ih]
      _ = a <<< (k + 1) + b := by
          rw [Nat.bit_val, h1, Nat.bit_val]
          rcases Nat.mod_two_eq_zero_or_one b with h | h <;> simp [h] <;> omega

/-- The vendor-id reassembly `(b2 << 16) | (b3 << 8) | b4` is big-endian
byte composition when the inputs are bytes. -/
lemma vendor_id_decode (b2 b3 b4 : Nat) (h3 : b3 < 256) (h4 : b4 < 256) :
    ((b2 <<< 16) ||| (b3 <<< 8)) ||| b4 = b2 * 65536 + b3 * 256 + b4 := by
  rw [Nat.lor_assoc]
  have h16 : (2 : Nat) ^ 16 = 65536 := by norm_num
  have e1 : (b3 <<< 8) ||| b4 = b3 <<< 8 + b4 :=
    shiftLeft_lor_eq_add 8 b3 b4 (by simpa using h4)
  rw [e1]
  have hsl : b3 <<< 8 = b3 * 256 := by
    rw [Nat.shiftLeft_eq]
  have e2 : (b2 <<< 16) ||| (b3 <<< 8 + b4) = b2 <<< 16 + (b3 <<< 8 + b4) := by
    apply shiftLeft_lor_eq_add
    rw [hsl, h16]
    omega
  rw [e2, hsl, Nat.shiftLeft_eq, h16]
  ring

/-- Decoding the two big-endian bytes of a `u16` restores it. -/
lemma pafb_u16 (pa : Nat) (h : pa < 65536) :
    physical_address_from_bytes (u16_to_be_bytes pa) = .ok pa := by
  simp only [u16_to_be_bytes, physical_address_from_bytes]
  congr 1
  omega

/-- Generic success evaluation of `from_raw` on a frame made of an
address byte, an opcode byte, and parameter bytes. -/
lemma from_raw_ok (a : Nat) (op : Opcode) (params : List Nat)
    (m : CECMessage)
    (hlen : ¬ ((a :: op.val :: params).length < min_len op.val))
    (hp : parse_message op.val (a :: op.val :: params) = .ok m) :
    ∃ cmd, CECCommand.from_raw (a :: op.val :: params) = .ok cmd ∧
      cmd.message = m := by
  obtain ⟨ini, hini⟩ := LogicalAddress.try_from_isSome _ (and_f0_shr_lt a)
  obtain ⟨dst, hdst⟩ := LogicalAddress.try_from_isSome _ (and_0f_lt a)
  refine ⟨⟨some ini, dst, m⟩, ?_, rfl⟩
  unfold CECCommand.from_raw
  simp only [List.length_cons] at hlen
  simp [idx?, hini, hdst, opcode_try_from_val, hp, hlen,
    show ¬ (params.length + 1 + 1 < 2) from by omega]

/-! ### Claim theorems -/

/-- Claim C1 (corrected): decoding the encoding restores the message for
every well-formed message that is round-trippable — i.e. excluding an
empty OSD name, empty vendor data, and a vendor id of 2^24 or more, on
which the claim as stated fails (see the counterexample). -/
theorem c1_round_trip (m : CECMessage) (a : Nat) (hwf : m.wf)
    (hrt : m.roundTrippable) :
    ∃ cmd, CECCommand.from_raw (a :: m.payload) = .ok cmd ∧
      cmd.message = m := by
  cases m with
  | FeatureAbort fop ar =>
    apply from_raw_ok a Opcode.FeatureAbort [fop.val, ar.toNat]
    · show ¬ ((4 : Nat) < 4); decide
    · show (match Opcode.try_from fop.val with
        | none => PResult.error Error.BadOpcode
        | some f =>
          match AbortReason.try_from ar.toNat with
          | none => PResult.error Error.BadAbortReason
          | some r => PResult.ok (CECMessage.FeatureAbort f r)) =
          PResult.ok (CECMessage.FeatureAbort fop ar)
      simp only [opcode_try_from_val, abort_reason_try_from_toNat]
  | ImageViewOn =>
    apply from_raw_ok a Opcode.ImageViewOn []
    · show ¬ ((2 : Nat) < 2); decide
    · rfl
  | Standby =>
    apply from_raw_ok a Opcode.Standby []
    · show ¬ ((2 : Nat) < 2); decide
    · rfl
  | RequestActiveSource =>
    apply from_raw_ok a Opcode.RequestActiveSource []
    · show ¬ ((2 : Nat) < 2); decide
    · rfl
  | ActiveSource pa =>
    simp only [CECMessage.wf] at hwf
    apply from_raw_ok a Opcode.ActiveSource (u16_to_be_bytes pa)
    · show ¬ ((4 : Nat) < 4); decide
    · have harith : (pa / 256) % 256 * 256 + pa % 256 = pa := by omega
      calc parse_message Opcode.ActiveSource.val
            (a :: Opcode.ActiveSource.val :: u16_to_be_bytes pa)
          = .ok (.ActiveSource ((pa / 256) % 256 * 256 + pa % 256)) := rfl
        _ = .ok (.ActiveSource pa) := by rw [harith]
  | GivePhysicalAddress =>
    apply from_raw_ok a Opcode.GivePhysicalAddress []
    · show ¬ ((2 : Nat) < 2); decide
    · rfl
  | ReportPhysicalAddress pa dt =>
    simp only [CECMessage.wf] at hwf
    apply from_raw_ok a Opcode.ReportPhysicalAddress
      (u16_to_be_bytes pa ++ [dt.toNat])
    · show ¬ ((5 : Nat) < 5); decide
    · have harith : (pa / 256) % 256 * 256 + pa % 256 = pa := by omega
      show (match DeviceType.try_from dt.toNat with
        | none => PResult.error Error.BadDeviceType
        | some d =>
          PResult.ok (CECMessage.ReportPhysicalAddress
            ((pa / 256) % 256 * 256 + pa % 256) d)) =
          PResult.ok (CECMessage.ReportPhysicalAddress pa dt)
      simp only [device_type_try_from_toNat, harith]
  | SetStreamPath pa =>
    simp only [CECMessage.wf] at hwf
    apply from_raw_ok a Opcode.SetStreamPath (u16_to_be_bytes pa)
    · show ¬ ((4 : Nat) < 4); decide
    · have harith : (pa / 256) % 256 * 256 + pa % 256 = pa := by omega
      calc parse_message Opcode.SetStreamPath.val
            (a :: Opcode.SetStreamPath.val :: u16_to_be_bytes pa)
          = .ok (.SetStreamPath ((pa / 256) % 256 * 256 + pa % 256)) := rfl
        _ = .ok (.SetStreamPath pa) := by rw [harith]
  | GiveOSDName =>
    apply from_raw_ok a Opcode.GiveOSDName []
    · show ¬ ((2 : Nat) < 2); decide
    · rfl
  | SetOSDName s =>
    simp only [CECMessage.roundTrippable] at hrt
    apply from_raw_ok a Opcode.SetOSDName s.val
    · show ¬ ((a :: (0x47 : Nat) :: s.val).length < 3)
      have := List.length_pos.mpr hrt
      simp only [List.length_cons]
      omega
    · show (match sliceFrom? (a :: (0x47 : Nat) :: s.val) 2 with
        | none => PResult.panic
        | some b =>
          match from_utf8 b with
          | none => PResult.error Error.BadString
          | some name => PResult.ok (CECMessage.SetOSDName name)) =
          PResult.ok (CECMessage.SetOSDName s)
      have h1 : sliceFrom? (a :: (0x47 : Nat) :: s.val) 2 = some s.val := by
        simp [sliceFrom?]
      have h2 : from_utf8 s.val = some s := by
        simp [from_utf8, s.property]
      simp only [h1, h2]
  | GiveDevicePowerStatus =>
    apply from_raw_ok a Opcode.GiveDevicePowerStatus []
    · show ¬ ((2 : Nat) < 0); decide
    · rfl
  | ReportPowerStatus ps =>
    apply from_raw_ok a Opcode.ReportPowerStatus [ps.toNat]
    · show ¬ ((3 : Nat) < 3); decide
    · show (match PowerStatus.try_from ps.toNat with
        | none => PResult.error Error.BadPowerStatus
        | some p => PResult.ok (CECMessage.ReportPowerStatus p)) =
          PResult.ok (CECMessage.ReportPowerStatus ps)
      simp only [power_status_try_from_toNat]
  | GiveDeviceVendorID =>
    apply from_raw_ok a Opcode.GiveDeviceVendorID []
    · show ¬ ((2 : Nat) < 2); decide
    · rfl
  | DeviceVendorID v =>
    simp only [CECMessage.roundTrippable] at hrt
    apply from_raw_ok a Opcode.DeviceVendorID ((u32_to_be_bytes v).drop 1)
    · show ¬ ((5 : Nat) < 5); decide
    · show PResult.ok (CECMessage.DeviceVendorID
          ((((v / 65536 % 256) <<< 16) ||| ((v / 256 % 256) <<< 8)) |||
            (v % 256))) =
        PResult.ok (CECMessage.DeviceVendorID v)
      rw [vendor_id_decode (v / 65536 % 256) (v / 256 % 256) (v % 256)
        (by omega) (by omega)]
      have harith :
          v / 65536 % 256 * 65536 + v / 256 % 256 * 256 + v % 256 = v := by
        omega
      rw [harith]
  | GiveDeckStatus ds =>
    apply from_raw_ok a Opcode.GiveDeckStatus [ds.toNat]
    · show ¬ ((3 : Nat) < 3); decide
    · show (match DeckStatus.try_from ds.toNat with
        | none => PResult.error Error.BadDeckStatus
        | some d => PResult.ok (CECMessage.GiveDeckStatus d)) =
          PResult.ok (CECMessage.GiveDeckStatus ds)
      simp only [deck_status_try_from_toNat]
  | GiveAudioStatus =>
    apply from_raw_ok a Opcode.GiveAudioStatus []
    · show ¬ ((2 : Nat) < 2); decide
    · rfl
  | RoutingChange oa na =>
    simp only [CECMessage.wf] at hwf
    obtain ⟨hoa, hna⟩ := hwf
    apply from_raw_ok a Opcode.RoutingChange
      (u16_to_be_bytes oa ++ u16_to_be_bytes na)
    · show ¬ ((6 : Nat) < 6); decide
    · have h1 : (oa / 256) % 256 * 256 + oa % 256 = oa := by omega
      have h2 : (na / 256) % 256 * 256 + na % 256 = na := by omega
      calc parse_message Opcode.RoutingChange.val
            (a :: Opcode.RoutingChange.val ::
              (u16_to_be_bytes oa ++ u16_to_be_bytes na))
          = .ok (.RoutingChange ((oa / 256) % 256 * 256 + oa % 256)
              ((na / 256) % 256 * 256 + na % 256)) := rfl
        _ = .ok (.RoutingChange oa na) := by rw [h1, h2]
  | UserControlPressed uc =>
    apply from_raw_ok a Opcode.UserControlPressed [uc.val]
    · show ¬ ((3 : Nat) < 3); decide
    · show (match UserControl.try_from uc.val with
        | none => PResult.error Error.BadUserControlCode
        | some u => PResult.ok (CECMessage.UserControlPressed u)) =
          PResult.ok (CECMessage.UserControlPressed uc)
      simp only [user_control_try_from_val]
  | UserControlReleased =>
    apply from_raw_ok a Opcode.UserControlReleased []
    · show ¬ ((2 : Nat) < 2); decide
    · rfl
  | VendorCommand d =>
    simp only [CECMessage.roundTrippable] at hrt
    apply from_raw_ok a Opcode.VendorCommand d
    · show ¬ ((a :: (0x89 : Nat) :: d).length < 3)
      have := List.length_pos.mpr hrt
      simp only [List.length_cons]
      omega
    · show (match sliceFrom? (a :: (0x89 : Nat) :: d) 2 with
        | none => PResult.panic
        | some dd => PResult.ok (CECMessage.VendorCommand dd)) =
          PResult.ok (CECMessage.VendorCommand d)
      have h1 : sliceFrom? (a :: (0x89 : Nat) :: d) 2 = some d := by
        simp [sliceFrom?]
      simp only [h1]

/-- Claim C1 counterexample: for the constructible message
`SetOSDName ""` (an empty name), decoding the encoding fails with
`InputTooShort` instead of succeeding, so the round-trip law as stated
(which includes the empty string) is false. -/
theorem c1_round_trip_counterexample :
    CECCommand.from_raw
        (0x40 :: (CECMessage.SetOSDName ⟨[], rfl⟩).payload) =
      .error .InputTooShort := by decide

/-- Claim C1 witness: the amended round-trip theorem applied to the
concrete message `DeviceVendorID 0x123456` with address byte `0x40`. -/
theorem c1_round_trip_witness :
    (CECMessage.DeviceVendorID 0x123456).wf ∧
    (CECMessage.DeviceVendorID 0x123456).roundTrippable ∧
    ∃ cmd, CECCommand.from_raw
        (0x40 :: (CECMessage.DeviceVendorID 0x123456).payload) = .ok cmd ∧
      cmd.message = CECMessage.DeviceVendorID 0x123456 :=
  ⟨by show (0x123456 : Nat) < 4294967296; norm_num,
    by show (0x123456 : Nat) < 16777216; norm_num,
    c1_round_trip (CECMessage.DeviceVendorID 0x123456) 0x40
      (by show (0x123456 : Nat) < 4294967296; norm_num)
      (by show (0x123456 : Nat) < 16777216; norm_num)⟩

/-- Claim C2: for any opcode, an input that carries that opcode byte (or
is shorter than 2 bytes) and is shorter than the opcode's minimum total
length is rejected with the length error `InputTooShort` — never a
partially-populated message. -/
theorem c2_min_length (op : Opcode) (bs : List Nat)
    (hloc : bs.get? 1 = some op.val ∨ bs.length ≤ 1)
    (hshort : bs.length < min_len op.val) :
    CECCommand.from_raw bs = .error .InputTooShort := by
  rcases bs with _ | ⟨b0, _ | ⟨b1, rest⟩⟩
  · rfl
  · obtain ⟨ini, hini⟩ := LogicalAddress.try_from_isSome _ (and_f0_shr_lt b0)
    obtain ⟨dst, hdst⟩ := LogicalAddress.try_from_isSome _ (and_0f_lt b0)
    unfold CECCommand.from_raw
    simp [idx?, hini, hdst]
  · have hb1 : b1 = op.val := by
      rcases hloc with h | h
      · simpa [idx?] using h
      · simp at h
    subst hb1
    obtain ⟨ini, hini⟩ := LogicalAddress.try_from_isSome _ (and_f0_shr_lt b0)
    obtain ⟨dst, hdst⟩ := LogicalAddress.try_from_isSome _ (and_0f_lt b0)
    unfold CECCommand.from_raw
    simp only [List.length_cons] at hshort
    simp [idx?, hini, hdst, opcode_try_from_val, hshort,
      show ¬ (rest.length + 1 + 1 < 2) from by omega]

/-- Claim C2 witness: a 2-byte frame carrying the `SetOSDName` opcode
(minimum length 3) is rejected with `InputTooShort`. -/
theorem c2_min_length_witness :
    (([0x40, 0x47] : List Nat).get? 1 = some Opcode.SetOSDName.val ∨
      ([0x40, 0x47] : List Nat).length ≤ 1) ∧
    ([0x40, 0x47] : List Nat).length < min_len Opcode.SetOSDName.val ∧
    CECCommand.from_raw [0x40, 0x47] = .error .InputTooShort :=
  ⟨Or.inl (by decide), by decide,
    c2_min_length Opcode.SetOSDName [0x40, 0x47] (Or.inl (by decide))
      (by decide)⟩

/-- Claim C3 (corrected): a single-byte frame — even one whose two
nibbles are valid logical addresses — is rejected with `InputTooShort`;
the codec has no representation of the empty/"polling" frame. -/
theorem c3_single_byte (b : Nat) :
    CECCommand.from_raw [b] = .error .InputTooShort := by
  obtain ⟨ini, hini⟩ := LogicalAddress.try_from_isSome _ (and_f0_shr_lt b)
  obtain ⟨dst, hdst⟩ := LogicalAddress.try_from_isSome _ (and_0f_lt b)
  unfold CECCommand.from_raw
  simp [idx?, hini, hdst]

/-- Claim C3 counterexample: the single-byte frame `0x04` (initiator TV,
destination PlaybackDevice1 — both valid logical addresses) is reported
as a length error, not decoded as a polling frame. -/
theorem c3_single_byte_counterexample :
    CECCommand.from_raw [0x04] = .error .InputTooShort := by decide

/-- Claim C9: `CECCommand::from_raw` is total — on every byte sequence it
returns `Ok` or a parse error, never panicking, because every slice
access is guarded by the preceding length checks. -/
theorem c9_from_raw_total (input : List Nat) :
    (CECCommand.from_raw input).isPanic = false := by
  rcases h : CECCommand.from_raw input with _ | e | c
  · exact absurd h (from_raw_no_panic input)
  · rfl
  · rfl

/-- `CEC::transmit` always records the frame and returns the connection's
result (the tx-echo wait is a soft timeout that never fails). -/
lemma CEC.transmit_eq (conn : ConnTransmit) (s : CECState)
    (d : LogicalAddress) (m : CECMessage) :
    CEC.transmit conn s d m =
      ({ s with sent := s.sent ++ [⟨none, d, m⟩] }, conn ⟨none, d, m⟩) := by
  rcases h : conn ⟨none, d, m⟩ with e | u
  · simp [CEC.transmit, h]
  · simp [CEC.transmit, h]

/-- `CEC::transmit` over the No-op transport: records the frame, `Ok`. -/
lemma CEC.transmit_noop (s : CECState) (d : LogicalAddress) (m : CECMessage) :
    CEC.transmit LogOnlyConn.transmit s d m =
      ({ s with sent := s.sent ++ [⟨none, d, m⟩] }, .ok ()) := rfl

/-- The `poll_all` loop over the No-op transport emits two frames per
address and succeeds. -/
lemma CEC.poll_all_go_noop : ∀ (addrs : List LogicalAddress) (s : CECState),
    CEC.poll_all_go LogOnlyConn.transmit addrs s =
      ({ s with sent := s.sent ++ addrs.flatMap (fun a =>
          [⟨none, a, .GiveOSDName⟩, ⟨none, a, .GivePhysicalAddress⟩]) },
        .ok ()) := by
  intro addrs
  induction addrs with
  | nil => intro s; simp [CEC.poll_all_go]
  | cons a rest ih =>
    intro s
    simp [CEC.poll_all_go, CEC.transmit_noop, seqOp, ih, List.append_assoc]

/-- `seqOp` preserves a power-state invariant that both parts preserve. -/
lemma seqOp_power (r : CECState × Except CECError Unit)
    (k : CECState → CECState × Except CECError Unit) (p : Bool)
    (hr : r.1.power_state = p)
    (hk : ∀ s, s.power_state = p → (k s).1.power_state = p) :
    (seqOp r k).1.power_state = p := by
  rcases r with ⟨s, res⟩
  rcases res with e | u
  · simpa [seqOp] using hr
  · exact hk s hr

/-- Claim C4: over the No-op transport, `mute(b)` succeeds and issues
exactly the six frames of `mute_frames b`: three press+release pairs to
the display, of which exactly one presses Mute, one VolumeDown and one
VolumeUp — regardless of prior state, for both directions. -/
theorem c4_mute_bracket (s : CECState) (b : Bool) :
    (CEC.mute LogOnlyConn.transmit s b).2 = .ok () ∧
    (CEC.mute LogOnlyConn.transmit s b).1.sent = s.sent ++ mute_frames b ∧
    ((mute_frames b).filter is_press).length = 3 ∧
    (mute_frames b).count (press_cmd .Mute) = 1 ∧
    (mute_frames b).count (press_cmd .VolumeDown) = 1 ∧
    (mute_frames b).count (press_cmd .VolumeUp) = 1 := by
  cases b <;>
    refine ⟨?_, ?_, by decide, by decide, by decide, by decide⟩ <;>
    simp [CEC.mute, CEC.volume_change, CEC.press_key_times, CEC.press_key,
      seqOp, CEC.transmit_noop, mute_frames, press_pair, press_cmd,
      release_cmd]

/-- Claim C5 (corrected): `on_off(b)` transmits "image view on" or
"standby" to the display and records the requested power state — but it
records the state BEFORE transmitting, so after the call `is_on()`
returns `b` for every connection, including one whose transmit fails. -/
theorem c5_on_off_records_state (conn : ConnTransmit) (s : CECState)
    (b : Bool) :
    CEC.is_on (CEC.on_off conn s b).1 = b ∧
    (CEC.on_off conn s b).1.sent =
      s.sent ++ [⟨none, .TV, if b then .ImageViewOn else .Standby⟩] := by
  cases b <;>
    simp [CEC.on_off, CEC.transmit_eq, CEC.is_on]

/-- Claim C5 counterexample: with a connection whose transmit fails,
`on_off(true)` returns the transmit error yet the locally recorded power
state HAS already been updated — refuting "if the transmit returns an
error, the locally recorded power state is not yet updated". -/
theorem c5_on_off_counterexample :
    (CEC.on_off failConn ⟨false, 0, []⟩ true).2 = .error CECError.Other ∧
    (CEC.on_off failConn ⟨false, 0, []⟩ true).1.power_state = true :=
  ⟨rfl, rfl⟩

/-- Claim C7: `poll_all()` over the No-op transport succeeds and issues
exactly the 24 frames of `poll_frames` — per peer address, "give OSD
name" then "give physical address", for the fixed 12-address list. -/
theorem c7_poll_all (s : CECState) :
    (CEC.poll_all LogOnlyConn.transmit s).2 = .ok () ∧
    (CEC.poll_all LogOnlyConn.transmit s).1.sent = s.sent ++ poll_frames ∧
    poll_frames.length = 24 := by
  refine ⟨?_, ?_, by decide⟩ <;>
    simp [CEC.poll_all, CEC.poll_all_go_noop, poll_frames]

/-- Claim C10: `set_input` never touches the power state (for every
connection), and over the No-op transport it records the mapped physical
address (HDMI1 ↦ 0x1000, …, HDMI4 ↦ 0x4000) and succeeds. -/
theorem c10_set_input (conn : ConnTransmit) (s : CECState) (inp : Input) :
    CEC.is_on (CEC.set_input conn s inp).1 = CEC.is_on s ∧
    CEC.current_input (CEC.set_input LogOnlyConn.transmit s inp).1 =
      input_addr inp ∧
    (CEC.set_input LogOnlyConn.transmit s inp).2 = .ok () := by
  refine ⟨?_, ?_, ?_⟩
  · show (CEC.set_input conn s inp).1.power_state = s.power_state
    unfold CEC.set_input
    apply seqOp_power _ _ _ (by simp [CEC.broadcast, CEC.transmit_eq])
    intro s1 h1
    apply seqOp_power _ _ _ (by simp [CEC.broadcast, CEC.transmit_eq, h1])
    intro s2 h2
    simpa using h2
  · cases inp <;>
      simp [CEC.set_input, CEC.broadcast, CEC.transmit_noop, seqOp,
        CEC.current_input, input_addr]
  · cases inp <;>
      simp [CEC.set_input, CEC.broadcast, CEC.transmit_noop, seqOp]

/-- Claim C8: `retry` is transparent to interruption — when the
underlying call returns `EINTR` on a finite prefix of invocations and
then a non-`EINTR` result, `retry` returns that first non-`EINTR` result
(here the call sequence is the list of the closure's successive
results). -/
theorem c8_retry_transparent (pre : List NixResult) (r : NixResult)
    (rest : List NixResult)
    (hpre : ∀ x ∈ pre, x = .error (.Sys EINTR))
    (hr : r ≠ .error (.Sys EINTR)) :
    retry (pre ++ r :: rest) = some r := by
  induction pre with
  | nil =>
    simp only [List.nil_append]
    rcases r with e | x
    · rcases e with en | _ | _ | _
      · have hne : en ≠ EINTR := by
          intro hc
          exact hr (by rw [hc])
        simp [retry, hne]
      · rfl
      · rfl
      · rfl
    · rfl
  | cons x xs ih =>
    have hx := hpre x (by simp)
    subst hx
    simp only [List.cons_append, retry, if_pos rfl]
    exact ih (fun y hy => hpre y (by simp [hy]))

/-- Claim C8 witness: a call interrupted once and then succeeding with
`Ok(0)` returns `Ok(0)` through `retry`. -/
theorem c8_retry_transparent_witness :
    (∀ x ∈ [(.error (.Sys EINTR) : NixResult)], x = .error (.Sys EINTR)) ∧
    ((.ok 0 : NixResult) ≠ .error (.Sys EINTR)) ∧
    retry ([.error (.Sys EINTR)] ++ (.ok 0) :: []) = some (.ok 0) :=
  ⟨by decide, by decide,
    c8_retry_transparent [.error (.Sys EINTR)] (.ok 0) [] (by decide)
      (by decide)⟩

/-- Claim C6: whenever the receive callback completes (does not panic),
its power/input transitions are exactly: "active source" / "routing
change" (new address) / "set stream path" set the input to the carried
address and power to on; "standby" sets power to standby; "image view
on" sets power to on; every other message leaves both unchanged. -/
theorem c6_rx_state_transitions (osd : RustString) (vid : Nat)
    (conn : ConnModel) (st : RxState) (msg : CECCommand) (st' : RxState)
    (outs : List CECCommand)
    (h : CEC.rx_callback osd vid conn st msg = some (st', outs)) :
    st'.power_state = rx_power_spec st.power_state msg.message ∧
    st'.input_state = rx_input_spec st.input_state msg.message := by
  obtain ⟨mi, md, mm⟩ := msg
  cases mm <;>
    (simp only [CEC.rx_callback] at h
     repeat' split at h
     all_goals (try exact Option.noConfusion h)
     all_goals
       (simp only [Option.some.injEq, Prod.mk.injEq] at h
        obtain ⟨h1, h2⟩ := h
        subst h1
        simp_all [rx_power_spec, rx_input_spec]))

/-- Claim C6 witness: receiving "standby" over the No-op transport in
the state (on, input 7) yields the state (standby, input 7) with no
replies, matching the spec transition functions. -/
theorem c6_rx_state_transitions_witness :
    CEC.rx_callback ⟨[], rfl⟩ 0 LogOnlyConn
        ⟨true, 7, List.replicate 15 0⟩
        ⟨some .TV, .RecordingDevice1, .Standby⟩ =
      some (⟨false, 7, List.replicate 15 0⟩, []) ∧
    ((⟨false, 7, List.replicate 15 0⟩ : RxState).power_state =
        rx_power_spec
          (⟨true, 7, List.replicate 15 0⟩ : RxState).power_state
          (⟨some .TV, .RecordingDevice1, .Standby⟩ : CECCommand).message ∧
      (⟨false, 7, List.replicate 15 0⟩ : RxState).input_state =
        rx_input_spec
          (⟨true, 7, List.replicate 15 0⟩ : RxState).input_state
          (⟨some .TV, .RecordingDevice1, .Standby⟩ : CECCommand).message) :=
  ⟨rfl, c6_rx_state_transitions ⟨[], rfl⟩ 0 LogOnlyConn
    ⟨true, 7, List.replicate 15 0⟩ ⟨some .TV, .RecordingDevice1, .Standby⟩
    ⟨false, 7, List.replicate 15 0⟩ [] rfl⟩

end Cecvol
